import Mathlib

/-!
Formal model of the ArtworkFrametest texture-transform tool and texture-layer
registry, translated from the JavaScript/React source:

* `TextureTransformModal` (src/unnamed/part_001): the 2D affine transform
  editor (pan / corner-scale / edge-scale / rotate gestures, preview render,
  high-resolution bake, session lifecycle).
* `GlbTextureSwapTester` (src/src/GlbTextureSwapTester.jsx): the texture-layer
  registry (scan pass, apply, reset-to-original).
* `TextureLayerManager` (src/unnamed/part_000): the reusable layer manager
  with its own multi-map-type scan.

JavaScript numbers are modelled by real numbers; canvas 2D context transform
sequences are modelled as compositions of point maps applied in the source
code order (the last context call is applied first to the drawn point).
-/

open Real

namespace ArtFrame

/-- A 2D point in canvas pixel coordinates. -/
structure Vec2 where
  x : ℝ
  y : ℝ

/-- The user-editable affine transform state (`textureTransform` in
`TextureTransformModal`): image-center position in canvas pixels, per-axis
scale multipliers on top of the base fit scale, rotation in degrees. -/
structure Transform where
  translateX : ℝ
  translateY : ℝ
  scaleX : ℝ
  scaleY : ℝ
  rotationDeg : ℝ

/-- An axis-aligned rectangle `{x, y, width, height}` in canvas pixels
(`selectionRectRef` stores the solid outer box in this form). -/
structure Rect where
  x : ℝ
  y : ℝ
  width : ℝ
  height : ℝ

/-- `ctx.translate(tx, ty)` acting on a drawn point. -/
def ctxTranslate (tx ty : ℝ) (p : Vec2) : Vec2 :=
  ⟨p.x + tx, p.y + ty⟩

/-- `ctx.rotate(θ)` (θ in radians) acting on a drawn point. -/
noncomputable def ctxRotate (θ : ℝ) (p : Vec2) : Vec2 :=
  ⟨p.x * Real.cos θ - p.y * Real.sin θ, p.x * Real.sin θ + p.y * Real.cos θ⟩

/-- `ctx.scale(sx, sy)` acting on a drawn point. -/
def ctxScale (sx sy : ℝ) (p : Vec2) : Vec2 :=
  ⟨sx * p.x, sy * p.y⟩

/-- Degrees to radians: `(deg * Math.PI) / 180`. -/
noncomputable def degToRad (deg : ℝ) : ℝ := deg * Real.pi / 180

/-- Inner dashed box x: `sel.x + sel.width * 0.1` (same formula in
`renderTextureTransform` and `exportTextureFromSelection`). -/
def innerBoxX (sel : Rect) : ℝ := sel.x + sel.width * 0.1

/-- Inner dashed box y: `sel.y + sel.height * 0.1`. -/
def innerBoxY (sel : Rect) : ℝ := sel.y + sel.height * 0.1

/-- Inner dashed box width: `sel.width * 0.8`. -/
def innerBoxW (sel : Rect) : ℝ := sel.width * 0.8

/-- Inner dashed box height: `sel.height * 0.8`. -/
def innerBoxH (sel : Rect) : ℝ := sel.height * 0.8

/-- The fixed export bitmap width of the bake path (`const exportW = 2048`). -/
def exportWidth : ℝ := 2048

/-- Where image pixel `(u, v)` lands on the preview canvas.  Transcribed from
the draw block of `renderTextureTransform`:
`ctx.translate(translateX, translateY); ctx.rotate(rotationDeg·π/180);`
`ctx.scale(baseScale·scaleX, baseScale·scaleY); ctx.drawImage(img, -imgW/2, -imgH/2)`. -/
noncomputable def renderTexturePoint (tf : Transform) (baseScale imgW imgH u v : ℝ) : Vec2 :=
  let renderScaleX := baseScale * tf.scaleX
  let renderScaleY := baseScale * tf.scaleY
  ctxTranslate tf.translateX tf.translateY
    (ctxRotate (degToRad tf.rotationDeg)
      (ctxScale renderScaleX renderScaleY ⟨u - imgW / 2, v - imgH / 2⟩))

/-- Where image pixel `(u, v)` lands on the export bitmap.  Transcribed from
the draw block of `exportTextureFromSelection`:
`ctx.scale(s, s); ctx.translate(-innerX, -innerY);` followed by the same
translate/rotate/scale composition as the preview, with
`s = exportW / innerW`. -/
noncomputable def exportTexturePoint (tf : Transform) (baseScale : ℝ) (sel : Rect)
    (imgW imgH u v : ℝ) : Vec2 :=
  let iX := sel.x + sel.width * 0.1
  let iY := sel.y + sel.height * 0.1
  let iW := sel.width * 0.8
  let s := exportWidth / iW
  let renderScaleX := baseScale * tf.scaleX
  let renderScaleY := baseScale * tf.scaleY
  ctxScale s s
    (ctxTranslate (-iX) (-iY)
      (ctxTranslate tf.translateX tf.translateY
        (ctxRotate (degToRad tf.rotationDeg)
          (ctxScale renderScaleX renderScaleY ⟨u - imgW / 2, v - imgH / 2⟩))))

/-- The bake path as the specification describes it: the preview point map
followed by the origin shift `(-innerX, -innerY)` and the uniform scale
`exportW / innerW` that send the inner dashed box to the export bitmap.
This is the spec-side description that `exportTexturePoint` must refine. -/
noncomputable def bakeAsCropOfPreview (tf : Transform) (baseScale : ℝ) (sel : Rect)
    (imgW imgH u v : ℝ) : Vec2 :=
  let p := renderTexturePoint tf baseScale imgW imgH u v
  let s := exportWidth / innerBoxW sel
  ⟨s * (p.x - innerBoxX sel), s * (p.y - innerBoxY sel)⟩

/-- Result of `initializeTextureTransform`: the solid outer box stored in
`selectionRectRef`, the fit scale stored in `baseScaleRef`, and the initial
transform passed to `setTextureTransform`. -/
structure InitResult where
  selectionRect : Rect
  baseScale : ℝ
  transform : Transform

/-- The dashed-box dimensions `(dashedW, dashedH)` computed by
`initializeTextureTransform`: fit to width or height at 60% of the padded
canvas, with a fallback to the other axis when the first choice overflows. -/
noncomputable def dashedDims (imgW imgH canvasWidth canvasHeight : ℝ) : ℝ × ℝ :=
  let imgAspect := imgW / imgH
  let canvasAspect := canvasWidth / canvasHeight
  let sizeFactor : ℝ := 0.6
  let padding := canvasWidth * 0.01
  if canvasAspect < imgAspect then
    -- image wider than canvas aspect: fit to canvas width with size factor
    let dashedW := (canvasWidth - padding * 2) * sizeFactor
    let dashedH := dashedW / imgAspect
    if (canvasHeight - padding * 2) * sizeFactor < dashedH then
      let dashedH2 := (canvasHeight - padding * 2) * sizeFactor
      (dashedH2 * imgAspect, dashedH2)
    else
      (dashedW, dashedH)
  else
    -- image taller than canvas aspect: fit to canvas height with size factor
    let dashedH := (canvasHeight - padding * 2) * sizeFactor
    let dashedW := dashedH * imgAspect
    if (canvasWidth - padding * 2) * sizeFactor < dashedW then
      let dashedW2 := (canvasWidth - padding * 2) * sizeFactor
      (dashedW2, dashedW2 / imgAspect)
    else
      (dashedW, dashedH)

/-- `initializeTextureTransform(img, canvasWidth, canvasHeight)`: computes the
dashed box, derives the solid box (`dashed / 0.8`, centered in the canvas),
sets `baseScale = min(dashedW / imgW, dashedH / imgH)` and centers the image
in the dashed box with `scaleX = scaleY = 1`, `rotationDeg = 0`. -/
noncomputable def initializeTextureTransform (imgW imgH canvasWidth canvasHeight : ℝ) :
    InitResult :=
  let d := dashedDims imgW imgH canvasWidth canvasHeight
  let dashedW := d.1
  let dashedH := d.2
  let solidW := dashedW / 0.8
  let solidH := dashedH / 0.8
  let solidX := (canvasWidth - solidW) / 2
  let solidY := (canvasHeight - solidH) / 2
  let fitScale := min (dashedW / imgW) (dashedH / imgH)
  let dashedX := solidX + solidW * 0.1
  let dashedY := solidY + solidH * 0.1
  let imageCenterX := dashedX + dashedW / 2
  let imageCenterY := dashedY + dashedH / 2
  ⟨⟨solidX, solidY, solidW, solidH⟩, fitScale,
    ⟨imageCenterX, imageCenterY, 1, 1, 0⟩⟩

/-- Both branches of `dashedDims` keep the dashed box at the image's own
aspect: `dashedW / imgW = dashedH / imgH`. -/
theorem dashedDims_aspect (imgW imgH canvasWidth canvasHeight : ℝ)
    (hW : 0 < imgW) (hH : 0 < imgH) :
    (dashedDims imgW imgH canvasWidth canvasHeight).1 / imgW =
      (dashedDims imgW imgH canvasWidth canvasHeight).2 / imgH := by
  have hW0 : imgW ≠ 0 := ne_of_gt hW
  have hH0 : imgH ≠ 0 := ne_of_gt hH
  simp only [dashedDims]
  split_ifs <;> field_simp <;> ring

/-- An affine image of `[0, w]` stays between its endpoint values. -/
theorem affine_mem_uIcc (a S u w : ℝ) (h0 : 0 ≤ u) (h1 : u ≤ w) :
    a + S * u ∈ Set.uIcc a (a + S * w) := by
  rcases le_or_lt 0 S with hS | hS
  · exact Set.mem_uIcc.mpr (Or.inl ⟨by nlinarith, by nlinarith⟩)
  · exact Set.mem_uIcc.mpr (Or.inr ⟨by nlinarith, by nlinarith⟩)

end ArtFrame

namespace ArtFrame

/-- Claim C1 (preview/bake equivalence): for every transform state, base
scale, selection box, image size and image pixel `(u, v)`, the bake path of
`exportTextureFromSelection` sends the pixel exactly where the preview draw
of `renderTextureTransform` sends it, followed only by the origin shift
`(-innerX, -innerY)` and the uniform scale `exportW / innerW` that map the
inner dashed box onto the export bitmap: the export is a
resolution-independent crop of the preview, not an independent computation. -/
theorem C1_preview_bake_equivalence (tf : Transform) (baseScale : ℝ) (sel : Rect)
    (imgW imgH u v : ℝ) :
    exportTexturePoint tf baseScale sel imgW imgH u v =
      bakeAsCropOfPreview tf baseScale sel imgW imgH u v := by
  simp only [exportTexturePoint, bakeAsCropOfPreview, renderTexturePoint,
    ctxScale, ctxTranslate, ctxRotate, innerBoxX, innerBoxY, innerBoxW,
    Vec2.mk.injEq]
  constructor <;> ring

end ArtFrame

namespace ArtFrame

/-- Claim C2 (default fit invariant): for every image with positive
dimensions and every canvas size, `initializeTextureTransform` sets
`baseScale = min(innerBoxWidth / imageWidth, innerBoxHeight / imageHeight)`
and a transform with `scaleX = scaleY = 1`, `rotationDeg = 0` and translate
at the inner dashed box center, under which every drawn image pixel lies
inside the inner dashed box, with the image span exactly matching the box on
both axes (so at least one axis exactly touches the boundary). -/
theorem C2_default_fit (imgW imgH canvasWidth canvasHeight : ℝ)
    (hW : 0 < imgW) (hH : 0 < imgH)
    (r : InitResult)
    (hr : initializeTextureTransform imgW imgH canvasWidth canvasHeight = r) :
    r.baseScale = min (innerBoxW r.selectionRect / imgW) (innerBoxH r.selectionRect / imgH)
    ∧ r.transform.scaleX = 1 ∧ r.transform.scaleY = 1 ∧ r.transform.rotationDeg = 0
    ∧ r.transform.translateX = innerBoxX r.selectionRect + innerBoxW r.selectionRect / 2
    ∧ r.transform.translateY = innerBoxY r.selectionRect + innerBoxH r.selectionRect / 2
    ∧ r.baseScale * imgW = innerBoxW r.selectionRect
    ∧ r.baseScale * imgH = innerBoxH r.selectionRect
    ∧ ∀ u v, 0 ≤ u → u ≤ imgW → 0 ≤ v → v ≤ imgH →
        (renderTexturePoint r.transform r.baseScale imgW imgH u v).x ∈
          Set.uIcc (innerBoxX r.selectionRect)
            (innerBoxX r.selectionRect + innerBoxW r.selectionRect)
        ∧ (renderTexturePoint r.transform r.baseScale imgW imgH u v).y ∈
          Set.uIcc (innerBoxY r.selectionRect)
            (innerBoxY r.selectionRect + innerBoxH r.selectionRect) := by
  subst hr
  have h08 : (0.8 : ℝ) ≠ 0 := by norm_num
  have hasp := dashedDims_aspect imgW imgH canvasWidth canvasHeight hW hH
  simp only [initializeTextureTransform, innerBoxX, innerBoxY, innerBoxW, innerBoxH]
  set d := dashedDims imgW imgH canvasWidth canvasHeight with hd
  have e1 : d.1 / 0.8 * 0.8 = d.1 := div_mul_cancel₀ _ h08
  have e2 : d.2 / 0.8 * 0.8 = d.2 := div_mul_cancel₀ _ h08
  rw [e1, e2]
  have hmin1 : min (d.1 / imgW) (d.2 / imgH) = d.1 / imgW := by
    rw [← hasp, min_self]
  have hmin2 : min (d.1 / imgW) (d.2 / imgH) = d.2 / imgH := by
    rw [hasp, min_self]
  have hSw : min (d.1 / imgW) (d.2 / imgH) * imgW = d.1 := by
    rw [hmin1, div_mul_cancel₀ _ (ne_of_gt hW)]
  have hSh : min (d.1 / imgW) (d.2 / imgH) * imgH = d.2 := by
    rw [hmin2, div_mul_cancel₀ _ (ne_of_gt hH)]
  refine ⟨rfl, trivial, trivial, trivial, by ring, by ring, hSw, hSh, ?_⟩
  intro u v h0u h1u h0v h1v
  set S := min (d.1 / imgW) (d.2 / imgH) with hS
  rw [← hSw, ← hSh]
  simp only [renderTexturePoint, ctxTranslate, ctxRotate, ctxScale, degToRad,
    zero_mul, zero_div, Real.cos_zero, Real.sin_zero, mul_zero, mul_one,
    sub_zero, one_mul]
  constructor
  · rw [Set.mem_uIcc]
    rcases le_or_lt 0 S with hSpos | hSneg
    · refine Or.inl ⟨?_, ?_⟩
      · nlinarith [mul_nonneg hSpos h0u, mul_le_mul_of_nonneg_left h1u hSpos]
      · nlinarith [mul_nonneg hSpos h0u, mul_le_mul_of_nonneg_left h1u hSpos]
    · refine Or.inr ⟨?_, ?_⟩
      · nlinarith [mul_le_mul_of_nonpos_left h1u hSneg.le,
          mul_nonneg h0u (neg_nonneg.mpr hSneg.le)]
      · nlinarith [mul_le_mul_of_nonpos_left h1u hSneg.le,
          mul_nonneg h0u (neg_nonneg.mpr hSneg.le)]
  · rw [Set.mem_uIcc]
    rcases le_or_lt 0 S with hSpos | hSneg
    · refine Or.inl ⟨?_, ?_⟩
      · nlinarith [mul_nonneg hSpos h0v, mul_le_mul_of_nonneg_left h1v hSpos]
      · nlinarith [mul_nonneg hSpos h0v, mul_le_mul_of_nonneg_left h1v hSpos]
    · refine Or.inr ⟨?_, ?_⟩
      · nlinarith [mul_le_mul_of_nonpos_left h1v hSneg.le,
          mul_nonneg h0v (neg_nonneg.mpr hSneg.le)]
      · nlinarith [mul_le_mul_of_nonpos_left h1v hSneg.le,
          mul_nonneg h0v (neg_nonneg.mpr hSneg.le)]

/-- Witness for C2 at the spec's Scenario A image (3000 x 2000) on the
source's 500 x 333 canvas. -/
theorem C2_default_fit_witness :
    (0 : ℝ) < 3000 ∧ (0 : ℝ) < 2000 ∧
    (initializeTextureTransform 3000 2000 500 333).baseScale =
      min (innerBoxW (initializeTextureTransform 3000 2000 500 333).selectionRect / 3000)
        (innerBoxH (initializeTextureTransform 3000 2000 500 333).selectionRect / 2000) :=
  ⟨by norm_num, by norm_num,
    (C2_default_fit 3000 2000 500 333 (by norm_num) (by norm_num) _ rfl).1⟩

end ArtFrame

namespace ArtFrame

/-- A source image element: `src`, the `complete` readiness flag, and its
natural dimensions (the source reads `naturalWidth || width`; we model the
resolved value). -/
structure Img where
  src : String
  complete : Bool
  naturalWidth : ℝ
  naturalHeight : ℝ

/-- The preview canvas element: backing-store pixel dimensions. -/
structure CanvasEl where
  width : ℝ
  height : ℝ

/-- The interaction kind stored in `isDragging`, as produced by the
pointer-down hit test (`corner-tl` … `rotate` … default `pan`). -/
inductive Gesture
  | pan
  | cornerTL
  | cornerTR
  | cornerBL
  | cornerBR
  | edgeTop
  | edgeBottom
  | edgeLeft
  | edgeRight
  | rotate
deriving DecidableEq

/-- The `dragStart` state: pointer-down position in canvas pixels and the
snapshot `{ ...textureTransform }` taken at pointer-down (initially null). -/
structure DragStart where
  x : ℝ
  y : ℝ
  transform : Option Transform

/-- The record stored in `lastAppliedTransformRef` on confirm: the spread of
the transform fields plus `baseScale` and a copy of the selection rect. -/
structure AppliedTransform where
  transform : Transform
  baseScale : ℝ
  selectionRect : Rect

/-- A texture object; `tid` is the object identity (clones get fresh ids). -/
structure Tex where
  tid : Nat
deriving DecidableEq

/-- A material as seen by the modal apply pass: its texture bindings by map
type name, and the `needsUpdate` flag. -/
structure ModalMat where
  maps : String → Option Tex
  needsUpdate : Bool

/-- One entry of the modal's `textureLayers` prop: whether `layer.mesh` and
`layer.material` are present (truthy), the index into the owning mesh's
material array, and the bound map type. `matIndex` indexes the flattened
material store of the model. -/
structure ModalLayer where
  valid : Bool
  matIndex : Nat
  mapType : String

/-- The outcome of `textureLoader.load(dataUrl, onLoad, _, onError)`:
whether the asynchronous decode of the exported data URL succeeded. -/
inductive LoadOutcome
  | ok
  | err
deriving DecidableEq

/-- The full state of `TextureTransformModal` (React state plus refs) along
with the material bindings it can mutate. -/
structure ModalWorld where
  textureTransform : Transform
  baseScale : ℝ
  selectionRect : Rect
  image : Option Img
  canvas : Option CanvasEl
  isDragging : Option Gesture
  dragStart : DragStart
  lastApplied : Option AppliedTransform
  originalSource : Option String
  textureLayers : List ModalLayer
  materials : List ModalMat
  nextTexId : Nat
  isOpen : Bool

/-- `Math.max(0.1, Math.min(5, v))` — the scale clamp used by every scale
update in `handleMouseMove`. -/
noncomputable def clampScale (v : ℝ) : ℝ := max 0.1 (min 5 v)

/-- `Math.atan2(y, x)` (JavaScript semantics; `atan2(0, 0) = 0`). -/
noncomputable def jsAtan2 (y x : ℝ) : ℝ :=
  if 0 < x then Real.arctan (y / x)
  else if x < 0 then
    (if 0 ≤ y then Real.arctan (y / x) + Real.pi else Real.arctan (y / x) - Real.pi)
  else
    (if 0 < y then Real.pi / 2 else if y < 0 then -(Real.pi / 2) else 0)

/-- `handleMouseDown(e, interactionType)`: requires the canvas (and its
bounding rect); records the gesture kind and the drag start — the pointer
position in canvas pixels and a snapshot of the current transform. -/
def handleMouseDown (w : ModalWorld) (x y : ℝ) (g : Gesture) : ModalWorld :=
  match w.canvas with
  | none => w
  | some _ =>
    { w with isDragging := some g, dragStart := ⟨x, y, some w.textureTransform⟩ }

/-- `handleMouseMove(e)`: transcribed branch by branch.  `(x, y)` is the
pointer position converted to canvas pixels (the same
`(clientX - rect.left) * canvasWidth / rectWidth` conversion as pointer-down).
The unreachable sub-case of a null snapshot under a non-null `isDragging`
(pointer-down always stores both together) leaves the state unchanged. -/
noncomputable def handleMouseMove (w : ModalWorld) (x y : ℝ) : ModalWorld :=
  match w.isDragging, w.canvas with
  | none, _ => w
  | some _, none => w
  | some g, some _ =>
    match w.dragStart.transform with
    | none => w
    | some snap =>
      let deltaX := x - w.dragStart.x
      let deltaY := y - w.dragStart.y
      let sel := w.selectionRect
      let centerX := sel.x + sel.width / 2
      let centerY := sel.y + sel.height / 2
      let newTransform :=
        match g with
        | .pan =>
          { snap with translateX := snap.translateX + deltaX,
                      translateY := snap.translateY + deltaY }
        | .cornerTL | .cornerTR | .cornerBL | .cornerBR =>
          let startDist := Real.sqrt ((w.dragStart.x - centerX) ^ 2 +
            (w.dragStart.y - centerY) ^ 2)
          let currentDist := Real.sqrt ((x - centerX) ^ 2 + (y - centerY) ^ 2)
          if 0.01 < startDist then
            let scaleFactor := currentDist / startDist
            { snap with scaleX := clampScale (snap.scaleX * scaleFactor),
                        scaleY := clampScale (snap.scaleY * scaleFactor) }
          else snap
        | .edgeTop | .edgeBottom =>
          let startDistY := |w.dragStart.y - centerY|
          let currentDistY := |y - centerY|
          if 0.01 < startDistY then
            let scaleFactor := currentDistY / startDistY
            { snap with scaleY := clampScale (snap.scaleY * scaleFactor) }
          else snap
        | .edgeLeft | .edgeRight =>
          let startDistX := |w.dragStart.x - centerX|
          let currentDistX := |x - centerX|
          -- source guard (line 467): checks currentDistX, yet divides by
          -- startDistX on the next line
          if 0.01 < currentDistX then
            let scaleFactor := currentDistX / startDistX
            { snap with scaleX := clampScale (snap.scaleX * scaleFactor) }
          else snap
        | .rotate =>
          let startAngle := jsAtan2 (w.dragStart.y - centerY) (w.dragStart.x - centerX)
          let currentAngle := jsAtan2 (y - centerY) (x - centerX)
          let deltaAngle := (currentAngle - startAngle) * 180 / Real.pi
          { snap with rotationDeg := snap.rotationDeg + deltaAngle }
      { w with textureTransform := newTransform }

/-- `handleMouseUp`: clears `isDragging`. -/
def handleMouseUp (w : ModalWorld) : ModalWorld :=
  { w with isDragging := none }

end ArtFrame

namespace ArtFrame

/-- The content drawn on the preview canvas by one complete
`renderTextureTransform` pass: checkerboard, the image drawn through the
composed transform, and the selection overlay geometry. -/
structure DrawnScene where
  tf : Transform
  baseScale : ℝ
  sel : Rect
  imgW : ℝ
  imgH : ℝ

/-- `renderTextureTransform()` as a canvas-state update: with no canvas, no
image, or an image that is not yet `complete`, it returns before touching the
canvas; otherwise it clears and redraws everything from the current state. -/
def renderTextureTransform (canvas : Option CanvasEl) (img : Option Img)
    (tf : Transform) (baseScale : ℝ) (sel : Rect)
    (prev : Option DrawnScene) : Option DrawnScene :=
  match canvas, img with
  | some _, some im =>
    if im.complete then some ⟨tf, baseScale, sel, im.naturalWidth, im.naturalHeight⟩
    else prev
  | _, _ => prev

/-- The data URL produced by `exportTextureFromSelection`: a PNG of the
stated size whose pixels are the image drawn through `exportTexturePoint`. -/
structure ExportedPng where
  width : ℝ
  height : ℤ
  tf : Transform
  baseScale : ℝ
  sel : Rect
  imgW : ℝ
  imgH : ℝ

/-- `exportTextureFromSelection()`: returns `null` when the image is missing
or not `complete`; otherwise bakes the inner dashed box at a 2048px-wide
resolution (height rounded from the inner box aspect) and serializes to PNG. -/
noncomputable def exportTextureFromSelection (img : Option Img) (tf : Transform)
    (baseScale : ℝ) (sel : Rect) : Option ExportedPng :=
  match img with
  | none => none
  | some im =>
    if im.complete then
      some ⟨exportWidth, round (exportWidth * (innerBoxH sel / innerBoxW sel)),
        tf, baseScale, sel, im.naturalWidth, im.naturalHeight⟩
    else none

/-- The per-layer apply loop of the confirm path: for each layer with its
mesh and material present and a material at `layer.materialIndex`, bind a
fresh clone of the loaded texture to `mat[layer.mapType]` and set
`needsUpdate`. -/
def applyTexToLayers (mats : List ModalMat) (layers : List ModalLayer)
    (nextId : Nat) : List ModalMat × Nat :=
  match layers with
  | [] => (mats, nextId)
  | layer :: rest =>
    if layer.valid then
      match mats[layer.matIndex]? with
      | none => applyTexToLayers mats rest nextId
      | some mat =>
        let clonedTex : Tex := ⟨nextId⟩
        let mat2 : ModalMat :=
          { maps := fun s => if s = layer.mapType then some clonedTex else mat.maps s,
            needsUpdate := true }
        applyTexToLayers (mats.set layer.matIndex mat2) rest (nextId + 1)
    else applyTexToLayers mats rest nextId

/-- `applyTextureTransformToAllLayers()`: export (abort if it returns null);
remember the current transform, base scale and selection rect in
`lastAppliedTransformRef`; store the original source once; then hand the data
URL to the texture loader — on decode success bind clones to every layer and
close the modal, on decode failure only log. `outcome` is the decode result
delivered to the loader callbacks. -/
noncomputable def applyTextureTransformToAllLayers (w : ModalWorld)
    (outcome : LoadOutcome) : ModalWorld :=
  match exportTextureFromSelection w.image w.textureTransform w.baseScale
      w.selectionRect with
  | none => w
  | some _ =>
    let w1 := { w with
      lastApplied := some ⟨w.textureTransform, w.baseScale, w.selectionRect⟩,
      originalSource :=
        match w.originalSource, w.image with
        | none, some im => some im.src
        | o, _ => o }
    match outcome with
    | .err => w1
    | .ok =>
      let applied := applyTexToLayers w1.materials w1.textureLayers w1.nextTexId
      { w1 with materials := applied.1, nextTexId := applied.2, isOpen := false }

/-- `resetTextureTransform()`: with the image and canvas present, recompute
the default initialization and clear `lastAppliedTransformRef`. -/
noncomputable def resetTextureTransform (w : ModalWorld) : ModalWorld :=
  match w.image, w.canvas with
  | some im, some c =>
    let r := initializeTextureTransform im.naturalWidth im.naturalHeight c.width c.height
    { w with selectionRect := r.selectionRect,
             baseScale := r.baseScale,
             textureTransform := r.transform,
             lastApplied := none }
  | _, _ => w

/-- The initialize/restore effect that runs when the modal opens with a
non-empty layer list: `img` is the image whose `onload` fired (the effect's
image-source selection and asynchronous load are external); the original
source is stored once; then, with the canvas present, either the remembered
last-applied transform, base scale and selection rect are restored exactly,
or the default fit is computed. -/
noncomputable def openModal (w : ModalWorld) (img : Img) : ModalWorld :=
  if w.textureLayers.isEmpty then { w with isOpen := true }
  else
    let src0 :=
      match w.originalSource with
      | none => some img.src
      | some s => some s
    let w1 := { w with isOpen := true, originalSource := src0, image := some img }
    match w1.canvas with
    | none => w1
    | some c =>
      match w1.lastApplied with
      | some la =>
        { w1 with baseScale := la.baseScale,
                  selectionRect := la.selectionRect,
                  textureTransform := la.transform }
      | none =>
        let r := initializeTextureTransform img.naturalWidth img.naturalHeight
          c.width c.height
        { w1 with selectionRect := r.selectionRect,
                  baseScale := r.baseScale,
                  textureTransform := r.transform }

/-- The events driving the modal. -/
inductive ModalEvent
  | mouseDown (x y : ℝ) (g : Gesture)
  | mouseMove (x y : ℝ)
  | mouseUp
  | modalOpen (img : Img)
  | cancel
  | reset
  | confirm (outcome : LoadOutcome)

/-- One step of the modal state machine. -/
noncomputable def modalStep (w : ModalWorld) (e : ModalEvent) : ModalWorld :=
  match e with
  | .mouseDown x y g => handleMouseDown w x y g
  | .mouseMove x y => handleMouseMove w x y
  | .mouseUp => handleMouseUp w
  | .modalOpen img => openModal w img
  | .cancel => { w with isOpen := false }
  | .reset => resetTextureTransform w
  | .confirm outcome => applyTextureTransformToAllLayers w outcome

end ArtFrame

namespace ArtFrame

/-- Both scale multipliers lie in the clamp range `[0.1, 5]`. -/
def scalesWithin (t : Transform) : Prop :=
  0.1 ≤ t.scaleX ∧ t.scaleX ≤ 5 ∧ 0.1 ≤ t.scaleY ∧ t.scaleY ≤ 5

/-- Any gesture-start snapshot currently held in `dragStart` has its scales
in the clamp range. -/
def snapWithin (w : ModalWorld) : Prop :=
  ∀ t, w.dragStart.transform = some t → scalesWithin t

/-- The events the scale-clamping claim ranges over: pointer-down and
pointer-move. -/
def isPointerDM : ModalEvent → Bool
  | .mouseDown _ _ _ => true
  | .mouseMove _ _ => true
  | _ => false

/-- The clamp always lands in `[0.1, 5]`. -/
theorem clampScale_mem (v : ℝ) : 0.1 ≤ clampScale v ∧ clampScale v ≤ 5 := by
  unfold clampScale
  exact ⟨le_max_left _ _, max_le (by norm_num) (min_le_left _ _)⟩

/-- One pointer-down or pointer-move step preserves the clamp invariant for
both the live transform and the held snapshot. -/
theorem ptrStep_preserves (w : ModalWorld) (e : ModalEvent)
    (he : isPointerDM e = true)
    (h1 : scalesWithin w.textureTransform)
    (h2 : w.isDragging = none ∨ snapWithin w) :
    scalesWithin (modalStep w e).textureTransform ∧
      ((modalStep w e).isDragging = none ∨ snapWithin (modalStep w e)) := by
  cases e with
  | mouseUp => simp [isPointerDM] at he
  | modalOpen img => simp [isPointerDM] at he
  | cancel => simp [isPointerDM] at he
  | reset => simp [isPointerDM] at he
  | confirm o => simp [isPointerDM] at he
  | mouseDown x y g =>
    rcases hC : w.canvas with _ | c
    · simp only [modalStep, handleMouseDown, hC]
      exact ⟨h1, h2⟩
    · simp only [modalStep, handleMouseDown, hC]
      refine ⟨h1, Or.inr ?_⟩
      intro t ht
      simp only at ht
      cases ht
      exact h1
  | mouseMove x y =>
    rcases hD : w.isDragging with _ | g
    · simp only [modalStep, handleMouseMove, hD]
      exact ⟨h1, Or.inl trivial⟩
    · have h2s : snapWithin w := by
        rcases h2 with h2 | h2
        · rw [hD] at h2; simp at h2
        · exact h2
      rcases hC : w.canvas with _ | c
      · simp only [modalStep, handleMouseMove, hD, hC]
        exact ⟨h1, Or.inr h2s⟩
      · rcases hS : w.dragStart.transform with _ | snap
        · simp only [modalStep, handleMouseMove, hD, hC, hS]
          exact ⟨h1, Or.inr h2s⟩
        · have hsnap : scalesWithin snap := by
            rcases h2 with h2 | h2
            · rw [hD] at h2; cases h2
            · exact h2 snap hS
          simp only [modalStep, handleMouseMove, hD, hC, hS]
          constructor
          · cases g
            case pan => exact hsnap
            case rotate => exact hsnap
            case cornerTL | cornerTR | cornerBL | cornerBR =>
              dsimp only
              split_ifs with h
              · exact ⟨(clampScale_mem _).1, (clampScale_mem _).2,
                  (clampScale_mem _).1, (clampScale_mem _).2⟩
              · exact hsnap
            case edgeTop | edgeBottom =>
              dsimp only
              split_ifs with h
              · exact ⟨hsnap.1, hsnap.2.1, (clampScale_mem _).1, (clampScale_mem _).2⟩
              · exact hsnap
            case edgeLeft | edgeRight =>
              dsimp only
              split_ifs with h
              · exact ⟨(clampScale_mem _).1, (clampScale_mem _).2,
                  hsnap.2.2.1, hsnap.2.2.2⟩
              · exact hsnap
          · right
            intro t ht
            simp only at ht
            rw [hS] at ht
            cases ht
            exact hsnap

/-- The clamp invariant is preserved by any list of pointer-down/move events. -/
theorem ptrFoldl_preserves (es : List ModalEvent) (w : ModalWorld)
    (hall : es.all isPointerDM = true)
    (h1 : scalesWithin w.textureTransform)
    (h2 : w.isDragging = none ∨ snapWithin w) :
    scalesWithin ((es.foldl modalStep w).textureTransform) ∧
      ((es.foldl modalStep w).isDragging = none ∨ snapWithin (es.foldl modalStep w)) := by
  induction es generalizing w with
  | nil => exact ⟨h1, h2⟩
  | cons e rest ih =>
    rw [List.all_cons, Bool.and_eq_true] at hall
    have hstep := ptrStep_preserves w e hall.1 h1 h2
    exact ih (modalStep w e) hall.2 hstep.1 hstep.2

end ArtFrame

namespace ArtFrame

/-- Claim C3 (scale clamping invariant): starting from any quiescent state
(no active drag) whose transform scales lie in `[0.1, 5]` — in particular the
default state with both equal to 1 — after any sequence of pointer-down and
pointer-move events of any gesture kind, both scale multipliers remain in
`[0.1, 5]`.  As the event list is universally quantified, the bound holds
after every prefix, i.e. at all times. -/
theorem C3_scale_clamping (w : ModalWorld) (es : List ModalEvent)
    (hidle : w.isDragging = none)
    (hsc : scalesWithin w.textureTransform)
    (hall : es.all isPointerDM = true) :
    scalesWithin ((es.foldl modalStep w).textureTransform) :=
  (ptrFoldl_preserves es w hall hsc (Or.inl hidle)).1

end ArtFrame

namespace ArtFrame

/-- A concrete quiescent modal state on the source's 500 x 333 canvas with a
200 x 100 selection box (outer-box center at (100, 50)). -/
def sampleWorld : ModalWorld where
  textureTransform := ⟨100, 50, 1, 1, 0⟩
  baseScale := 1
  selectionRect := ⟨0, 0, 200, 100⟩
  image := none
  canvas := some ⟨500, 333⟩
  isDragging := none
  dragStart := ⟨0, 0, none⟩
  lastApplied := none
  originalSource := none
  textureLayers := []
  materials := []
  nextTexId := 0
  isOpen := true

/-- `sampleWorld` with a decoded 3000 x 2000 source image. -/
def sampleWorldImg : ModalWorld :=
  { sampleWorld with image := some ⟨"art.png", true, 3000, 2000⟩ }

/-- Witness for C3: from the default state, a corner pointer-down followed
by a pointer-move keeps the scales in range. -/
theorem C3_scale_clamping_witness :
    sampleWorld.isDragging = none ∧
    scalesWithin sampleWorld.textureTransform ∧
    ([ModalEvent.mouseDown 10 10 Gesture.cornerTL,
      ModalEvent.mouseMove 150 90].all isPointerDM = true) ∧
    scalesWithin (([ModalEvent.mouseDown 10 10 Gesture.cornerTL,
      ModalEvent.mouseMove 150 90].foldl modalStep sampleWorld).textureTransform) :=
  ⟨rfl, ⟨by norm_num [sampleWorld], by norm_num [sampleWorld],
      by norm_num [sampleWorld], by norm_num [sampleWorld]⟩, rfl,
    C3_scale_clamping sampleWorld
      [ModalEvent.mouseDown 10 10 Gesture.cornerTL, ModalEvent.mouseMove 150 90]
      rfl
      ⟨by norm_num [sampleWorld], by norm_num [sampleWorld],
        by norm_num [sampleWorld], by norm_num [sampleWorld]⟩
      rfl⟩

end ArtFrame

namespace ArtFrame

/-- Claim C9 (gesture snapshot isolation): (1) every pointer-down with the
canvas present records the pointer position together with a snapshot of the
current transform, overwriting any previous drag start; (2) the transform
produced by a pointer-move depends only on the gesture kind, the drag-start
record, the selection rect and the current pointer — never on the live
transform; (3) replaying the same pointer-move within one gesture is
idempotent on the whole state, so deltas are never compounded. -/
theorem C9_gesture_snapshot_isolation :
    (∀ (w : ModalWorld) (x y : ℝ) (g : Gesture), w.canvas.isSome = true →
      (modalStep w (.mouseDown x y g)).dragStart = ⟨x, y, some w.textureTransform⟩ ∧
      (modalStep w (.mouseDown x y g)).isDragging = some g) ∧
    (∀ (w1 w2 : ModalWorld) (x y : ℝ) (g : Gesture) (snap : Transform),
      w1.isDragging = some g → w2.isDragging = some g →
      w1.dragStart = w2.dragStart →
      w1.dragStart.transform = some snap →
      w1.selectionRect = w2.selectionRect →
      w1.canvas.isSome = true → w2.canvas.isSome = true →
      (modalStep w1 (.mouseMove x y)).textureTransform =
        (modalStep w2 (.mouseMove x y)).textureTransform) ∧
    (∀ (w : ModalWorld) (x y : ℝ),
      modalStep (modalStep w (.mouseMove x y)) (.mouseMove x y) =
        modalStep w (.mouseMove x y)) := by
  refine ⟨?_, ?_, ?_⟩
  · intro w x y g hc
    rcases hC : w.canvas with _ | c
    · rw [hC] at hc; simp at hc
    · simp only [modalStep, handleMouseDown, hC]
      exact ⟨trivial, trivial⟩
  · intro w1 w2 x y g snap hd1 hd2 hds hsnap hsel hc1 hc2
    have hsnap2 : w2.dragStart.transform = some snap := hds ▸ hsnap
    rcases hC1 : w1.canvas with _ | c1
    · rw [hC1] at hc1; simp at hc1
    rcases hC2 : w2.canvas with _ | c2
    · rw [hC2] at hc2; simp at hc2
    simp only [modalStep, handleMouseMove, hd1, hd2, hC1, hC2, hds, hsel,
      hsnap, hsnap2]
  · intro w x y
    rcases hD : w.isDragging with _ | g
    · simp only [modalStep, handleMouseMove, hD]
    · rcases hC : w.canvas with _ | c
      · simp only [modalStep, handleMouseMove, hD, hC]
      · rcases hS : w.dragStart.transform with _ | snap
        · simp only [modalStep, handleMouseMove, hD, hC, hS]
        · simp only [modalStep, handleMouseMove, hD, hC, hS]

/-- Witness for C9 at a concrete pointer-down and pointer-move. -/
theorem C9_gesture_snapshot_isolation_witness :
    (modalStep sampleWorld (.mouseDown 10 20 Gesture.pan)).dragStart =
      ⟨10, 20, some sampleWorld.textureTransform⟩ ∧
    modalStep (modalStep sampleWorld (.mouseMove 30 40)) (.mouseMove 30 40) =
      modalStep sampleWorld (.mouseMove 30 40) :=
  ⟨(C9_gesture_snapshot_isolation.1 sampleWorld 10 20 Gesture.pan rfl).1,
    C9_gesture_snapshot_isolation.2.2 sampleWorld 30 40⟩

end ArtFrame

namespace ArtFrame

/-- Claim C4 as stated is false: a left-edge scale gesture whose start
distance on the x-axis is 0.005 (below the 0.01 threshold) is NOT skipped —
the guard in the `edge-left`/`edge-right` branch tests the current distance,
not the start distance, so the division by the near-zero start distance goes
through and the clamp drives `scaleX` from 1 to the bound 5 on a single
pointer-move. -/
theorem C4_counterexample :
    |(modalStep sampleWorld (.mouseDown 100.005 50 Gesture.edgeLeft)).dragStart.x -
        (sampleWorld.selectionRect.x + sampleWorld.selectionRect.width / 2)| < 0.01 ∧
    (modalStep sampleWorld (.mouseDown 100.005 50 Gesture.edgeLeft)).textureTransform.scaleX = 1 ∧
    (modalStep (modalStep sampleWorld (.mouseDown 100.005 50 Gesture.edgeLeft))
        (.mouseMove 150 50)).textureTransform.scaleX = 5 := by
  refine ⟨?_, ?_, ?_⟩
  · simp only [modalStep, handleMouseDown, sampleWorld]
    rw [abs_of_nonneg (by norm_num)]
    norm_num
  · simp only [modalStep, handleMouseDown, sampleWorld]
  · simp only [modalStep, handleMouseDown, handleMouseMove, sampleWorld]
    rw [show (150 : ℝ) - (0 + 200 / 2) = 50 by norm_num,
      show (100.005 : ℝ) - (0 + 200 / 2) = 0.005 by norm_num,
      abs_of_nonneg (by norm_num : (0 : ℝ) ≤ 50),
      abs_of_nonneg (by norm_num : (0 : ℝ) ≤ 0.005)]
    rw [if_pos (by norm_num : (0.01 : ℝ) < 50)]
    simp only [clampScale]
    rw [show (1 : ℝ) * (50 / 0.005) = 10000 by norm_num,
      min_eq_left (by norm_num : (5 : ℝ) ≤ 10000),
      max_eq_right (by norm_num : (0.1 : ℝ) ≤ 5)]

/-- The conditions under which a scale pointer-move actually skips its
update in `handleMouseMove`: start distance at most 0.01 for corner and
top/bottom edge gestures, but CURRENT x-distance at most 0.01 for left/right
edge gestures; pan and rotate moves are never skipped. -/
def skipsUpdate (g : Gesture) (w : ModalWorld) (x y : ℝ) : Prop :=
  let sel := w.selectionRect
  let centerX := sel.x + sel.width / 2
  let centerY := sel.y + sel.height / 2
  match g with
  | .cornerTL | .cornerTR | .cornerBL | .cornerBR =>
    Real.sqrt ((w.dragStart.x - centerX) ^ 2 + (w.dragStart.y - centerY) ^ 2) ≤ 0.01
  | .edgeTop | .edgeBottom => |w.dragStart.y - centerY| ≤ 0.01
  | .edgeLeft | .edgeRight => |x - centerX| ≤ 0.01
  | .pan | .rotate => False

/-- Claim C4, amended: corner-scale and top/bottom edge-scale pointer-moves
are skipped exactly when the gesture-start distance (on the scaled axis) is
at most 0.01, while left/right edge-scale moves are skipped only when the
CURRENT pointer x-distance from the center is at most 0.01; rotate moves are
never skipped.  A skipped move writes the gesture-start snapshot back to the
transform (so the transform is unchanged whenever it still equals the
snapshot), and no undefined value enters the state. -/
theorem C4_degenerate_guard_amended (w : ModalWorld) (x y : ℝ) (g : Gesture)
    (snap : Transform)
    (hd : w.isDragging = some g)
    (hc : w.canvas.isSome = true)
    (hs : w.dragStart.transform = some snap)
    (hg : skipsUpdate g w x y) :
    (modalStep w (.mouseMove x y)).textureTransform = snap := by
  rcases hC : w.canvas with _ | c
  · rw [hC] at hc; simp at hc
  simp only [modalStep, handleMouseMove, hd, hC, hs]
  cases g
  case pan => exact absurd hg id
  case rotate => exact absurd hg id
  case cornerTL | cornerTR | cornerBL | cornerBR =>
    simp only [skipsUpdate] at hg
    dsimp only
    rw [if_neg (not_lt.mpr hg)]
  case edgeTop | edgeBottom =>
    simp only [skipsUpdate] at hg
    dsimp only
    rw [if_neg (not_lt.mpr hg)]
  case edgeLeft | edgeRight =>
    simp only [skipsUpdate] at hg
    dsimp only
    rw [if_neg (not_lt.mpr hg)]

/-- `sampleWorld` in the middle of a top-edge drag that started exactly at
the outer-box center height (start y-distance 0). -/
def degenerateDragWorld : ModalWorld :=
  { sampleWorld with
      isDragging := some Gesture.edgeTop,
      dragStart := ⟨100, 50, some ⟨100, 50, 1, 1, 0⟩⟩ }

/-- Witness for the amended C4: a top-edge move whose gesture started at the
center height leaves the transform at the snapshot. -/
theorem C4_degenerate_guard_amended_witness :
    (modalStep degenerateDragWorld (.mouseMove 120 80)).textureTransform =
      ⟨100, 50, 1, 1, 0⟩ :=
  C4_degenerate_guard_amended degenerateDragWorld 120 80 Gesture.edgeTop
    ⟨100, 50, 1, 1, 0⟩ rfl rfl rfl
    (by
      simp only [skipsUpdate, degenerateDragWorld, sampleWorld]
      rw [show (50 : ℝ) - (0 + 100 / 2) = 0 by norm_num]
      rw [abs_zero]
      norm_num)

end ArtFrame

namespace ArtFrame

/-- Claim C5 (session lifecycle / remember-on-confirm): the remembered
last-applied transform is untouched by pointer events, by cancel/close and
by reopening; it is written (to the current transform, base scale and
selection rect) by a confirm whose export succeeds, and cleared by an
explicit reset; reopening after a confirm restores exactly the remembered
transform, base scale and selection-box geometry, while reopening with
nothing remembered recomputes the default fit. -/
theorem C5_session_lifecycle (w : ModalWorld) :
    (∀ x y g, (modalStep w (.mouseDown x y g)).lastApplied = w.lastApplied) ∧
    (∀ x y, (modalStep w (.mouseMove x y)).lastApplied = w.lastApplied) ∧
    (modalStep w .mouseUp).lastApplied = w.lastApplied ∧
    (modalStep w .cancel).lastApplied = w.lastApplied ∧
    (∀ img, (modalStep w (.modalOpen img)).lastApplied = w.lastApplied) ∧
    (∀ o im, w.image = some im → im.complete = true →
      (modalStep w (.confirm o)).lastApplied =
        some ⟨w.textureTransform, w.baseScale, w.selectionRect⟩) ∧
    (∀ im c, w.image = some im → w.canvas = some c →
      (modalStep w .reset).lastApplied = none) ∧
    (∀ la img c, w.lastApplied = some la → w.textureLayers.isEmpty = false →
      w.canvas = some c →
      (modalStep w (.modalOpen img)).textureTransform = la.transform ∧
      (modalStep w (.modalOpen img)).baseScale = la.baseScale ∧
      (modalStep w (.modalOpen img)).selectionRect = la.selectionRect) ∧
    (∀ img c, w.lastApplied = none → w.textureLayers.isEmpty = false →
      w.canvas = some c →
      (modalStep w (.modalOpen img)).textureTransform =
        (initializeTextureTransform img.naturalWidth img.naturalHeight
          c.width c.height).transform ∧
      (modalStep w (.modalOpen img)).baseScale =
        (initializeTextureTransform img.naturalWidth img.naturalHeight
          c.width c.height).baseScale ∧
      (modalStep w (.modalOpen img)).selectionRect =
        (initializeTextureTransform img.naturalWidth img.naturalHeight
          c.width c.height).selectionRect) := by
  refine ⟨?_, ?_, rfl, rfl, ?_, ?_, ?_, ?_, ?_⟩
  · intro x y g
    rcases hC : w.canvas with _ | c <;>
      simp only [modalStep, handleMouseDown, hC]
  · intro x y
    rcases hD : w.isDragging with _ | g
    · simp only [modalStep, handleMouseMove, hD]
    · rcases hC : w.canvas with _ | c
      · simp only [modalStep, handleMouseMove, hD, hC]
      · rcases hS : w.dragStart.transform with _ | snap <;>
          simp only [modalStep, handleMouseMove, hD, hC, hS]
  · intro img
    simp only [modalStep, openModal]
    split_ifs with h
    · rfl
    · rcases hC : w.canvas with _ | c
      · simp only [hC]
      · simp only [hC]
        rcases hL : w.lastApplied with _ | la <;> simp only [hL]
  · intro o im him hcm
    simp only [modalStep, applyTextureTransformToAllLayers,
      exportTextureFromSelection, him, hcm, if_true]
    cases o <;> rfl
  · intro im c him hc
    simp only [modalStep, resetTextureTransform, him, hc]
  · intro la img c hla hne hc
    simp only [modalStep, openModal, hne, Bool.false_eq_true, if_false, hc, hla]
    exact ⟨trivial, trivial, trivial⟩
  · intro img c hla hne hc
    simp only [modalStep, openModal, hne, Bool.false_eq_true, if_false, hc, hla]
    exact ⟨trivial, trivial, trivial⟩

/-- Witness for C5: at a concrete state with a decoded image, cancel keeps
the remembered transform and reset clears it. -/
theorem C5_session_lifecycle_witness :
    (modalStep sampleWorldImg .cancel).lastApplied = sampleWorldImg.lastApplied ∧
    (modalStep sampleWorldImg .reset).lastApplied = none :=
  ⟨(C5_session_lifecycle sampleWorldImg).2.2.2.1,
    (C5_session_lifecycle sampleWorldImg).2.2.2.2.2.2.1
      ⟨"art.png", true, 3000, 2000⟩ ⟨500, 333⟩ rfl rfl⟩

end ArtFrame

namespace ArtFrame

/-- Claim C8 (image-not-ready handling): whenever the source image is absent
or not fully decoded, a requested preview draw leaves the canvas untouched,
`exportTextureFromSelection` returns null, and the confirm path returns the
state unchanged — no material is modified and no transform is remembered. -/
theorem C8_image_not_ready (w : ModalWorld) (prev : Option DrawnScene)
    (o : LoadOutcome)
    (h : w.image = none ∨ ∃ im, w.image = some im ∧ im.complete = false) :
    renderTextureTransform w.canvas w.image w.textureTransform w.baseScale
      w.selectionRect prev = prev ∧
    exportTextureFromSelection w.image w.textureTransform w.baseScale
      w.selectionRect = none ∧
    applyTextureTransformToAllLayers w o = w := by
  have hexp : exportTextureFromSelection w.image w.textureTransform w.baseScale
      w.selectionRect = none := by
    rcases h with h | ⟨im, him, hcm⟩
    · simp only [exportTextureFromSelection, h]
    · simp only [exportTextureFromSelection, him, hcm]
      rw [if_neg]
      simp
  refine ⟨?_, hexp, ?_⟩
  · rcases h with h | ⟨im, him, hcm⟩
    · rcases hC : w.canvas with _ | c <;> simp only [renderTextureTransform, h, hC]
    · rcases hC : w.canvas with _ | c
      · simp only [renderTextureTransform, him, hC]
      · simp only [renderTextureTransform, him, hC, hcm]
        rw [if_neg]
        simp
  · simp only [applyTextureTransformToAllLayers, hexp]

/-- Witness for C8 with no source image loaded. -/
theorem C8_image_not_ready_witness :
    renderTextureTransform sampleWorld.canvas sampleWorld.image
      sampleWorld.textureTransform sampleWorld.baseScale
      sampleWorld.selectionRect none = none ∧
    exportTextureFromSelection sampleWorld.image sampleWorld.textureTransform
      sampleWorld.baseScale sampleWorld.selectionRect = none ∧
    applyTextureTransformToAllLayers sampleWorld LoadOutcome.ok = sampleWorld :=
  C8_image_not_ready sampleWorld none LoadOutcome.ok (Or.inl rfl)

end ArtFrame

namespace ArtFrame

/-- Claim C10 (confirm remembers before apply completes): with a decoded
source image, a confirm whose exported data URL fails to decode still
records the current transform, base scale and selection rect in the
remembered slot — set synchronously before the loader call — while no
material is modified, no texture is created, and the modal stays open. -/
theorem C10_confirm_remembers_before_apply (w : ModalWorld) (im : Img)
    (him : w.image = some im) (hcm : im.complete = true) :
    (applyTextureTransformToAllLayers w .err).lastApplied =
      some ⟨w.textureTransform, w.baseScale, w.selectionRect⟩ ∧
    (applyTextureTransformToAllLayers w .err).materials = w.materials ∧
    (applyTextureTransformToAllLayers w .err).nextTexId = w.nextTexId ∧
    (applyTextureTransformToAllLayers w .err).isOpen = w.isOpen := by
  simp only [applyTextureTransformToAllLayers, exportTextureFromSelection,
    him, hcm, if_true]
  exact ⟨trivial, trivial, trivial, trivial⟩

/-- Witness for C10 at a concrete state with a decoded 3000 x 2000 image. -/
theorem C10_confirm_remembers_before_apply_witness :
    (applyTextureTransformToAllLayers sampleWorldImg .err).lastApplied =
      some ⟨sampleWorldImg.textureTransform, sampleWorldImg.baseScale,
        sampleWorldImg.selectionRect⟩ ∧
    (applyTextureTransformToAllLayers sampleWorldImg .err).materials =
      sampleWorldImg.materials ∧
    (applyTextureTransformToAllLayers sampleWorldImg .err).nextTexId =
      sampleWorldImg.nextTexId ∧
    (applyTextureTransformToAllLayers sampleWorldImg .err).isOpen =
      sampleWorldImg.isOpen :=
  C10_confirm_remembers_before_apply sampleWorldImg
    ⟨"art.png", true, 3000, 2000⟩ rfl rfl

end ArtFrame

namespace ArtFrame

/-- A three.js texture as the registry sees it: object identity plus the
readiness of its backing image (`texture.image` present and, for an
`HTMLImageElement`, `complete`). -/
structure GTex where
  tid : Nat
  hasImage : Bool
  imageComplete : Bool
deriving DecidableEq

/-- A material in the scene: its name, its texture bindings by map type
name (`mat.map`, `mat.normalMap`, …), and the `needsUpdate` flag. -/
structure GMat where
  name : String
  maps : String → Option GTex
  needsUpdate : Bool

/-- A scene-graph object: its name, whether it `isMesh`, and — when a
material is present — the ids of its material objects in the material store
(one id for a single material, several for a material array). -/
structure GMesh where
  name : String
  isMesh : Bool
  material : Option (List Nat)

/-- One detected texture layer (`layerInfo` in the scan passes): the
session-unique id, the owning mesh name, the material index within the mesh,
the bound map type, the index of the mesh the stored `layer.mesh` reference
points to, and whether the stored `layer.material`/`layer.mesh` references
are truthy. -/
structure GLayer where
  id : String
  meshName : String
  materialIndex : Nat
  mapType : String
  meshIdx : Nat
  valid : Bool

/-- The layer-registry state of `GlbTextureSwapTester`: the scene, the
material store (a heap keyed by material id), the detected layers, the
original-texture registry, the two test textures, and the clone counter. -/
structure GWorld where
  meshes : List GMesh
  materials : Nat → GMat
  textureLayers : List GLayer
  originalTextures : List (String × GTex)
  testTexture1 : Option GTex
  testTexture2 : Option GTex
  nextTexId : Nat

/-- Whether `pat` occurs as a contiguous run inside `cs`. -/
def charsInclude (pat : List Char) : List Char → Bool
  | [] => pat.isEmpty
  | c :: rest => pat.isPrefixOf (c :: rest) || charsInclude pat rest

/-- `s.includes(pat)` for lowercase-folded JavaScript strings. -/
def strIncludes (s pat : String) : Bool :=
  charsInclude pat.toList s.toList

/-- `mat[layer.mapType] = tex; mat.needsUpdate = true;` — the in-place
material mutation shared by apply and reset. -/
def bindMap (m : GMat) (mt : String) (t : GTex) : GMat :=
  { m with maps := fun s => if s = mt then some t else m.maps s,
           needsUpdate := true }

/-- `resetLayerToOriginal(layerId)` of `GlbTextureSwapTester`: find the
layer, check its stored references, resolve the mesh and the material at
`layer.materialIndex`, and rebind the registry's original texture to
`mat[layer.mapType]`; every failed guard (including a missing registry
entry) leaves the state unchanged with a logged warning. -/
def resetLayerToOriginal (w : GWorld) (layerId : String) : GWorld :=
  match w.textureLayers.find? (fun l => l.id == layerId) with
  | none => w
  | some layer =>
    if layer.valid = false then w
    else
      match w.meshes[layer.meshIdx]? with
      | none => w
      | some mesh =>
        match mesh.material with
        | none => w
        | some mats =>
          match mats[layer.materialIndex]? with
          | none => w
          | some matId =>
            match w.originalTextures.lookup layerId with
            | none => w
            | some originalTex =>
              let mat := w.materials matId
              let mat2 := bindMap mat layer.mapType originalTex
              { w with materials := fun n => if n = matId then mat2 else w.materials n }

/-- `applyTestTextureToLayer(layerId, textureNumber)` of
`GlbTextureSwapTester`: find the layer, check its references, refuse any
`mapType` other than `map`, resolve the mesh, pick the test texture, skip if
its image is absent or not yet complete (the retry is a later re-invocation),
resolve the material, then bind a fresh clone to `mat.map`. -/
def applyTestTextureToLayer (w : GWorld) (layerId : String)
    (textureNumber : Nat) : GWorld :=
  match w.textureLayers.find? (fun l => l.id == layerId) with
  | none => w
  | some layer =>
    if layer.valid = false then w
    else if layer.mapType ≠ "map" then w
    else
      match w.meshes[layer.meshIdx]? with
      | none => w
      | some mesh =>
        match mesh.material with
        | none => w
        | some mats =>
          match (if textureNumber = 1 then w.testTexture1 else w.testTexture2) with
          | none => w
          | some testTex =>
            if testTex.hasImage = false ∨ testTex.imageComplete = false then w
            else
              match mats[layer.materialIndex]? with
              | none => w
              | some matId =>
                let clonedTex : GTex := ⟨w.nextTexId, testTex.hasImage, testTex.imageComplete⟩
                let mat := w.materials matId
                let mat2 := bindMap mat "map" clonedTex
                { w with materials := fun n => if n = matId then mat2 else w.materials n,
                         nextTexId := w.nextTexId + 1 }

end ArtFrame

namespace ArtFrame

/-- The inner loop of the `GlbTextureSwapTester` scan pass over one mesh's
material array: classify each material from mesh/material names, and when it
has a color `map` and counts as the print surface, emit a `map` layer and
record the original texture. -/
def scanMatsPass (materials : Nat → GMat) (meshIdx : Nat) (meshName : String) :
    List Nat → Nat → Nat → List GLayer × List (String × GTex) × Nat
  | [], _, counter => ([], [], counter)
  | matId :: rest, matIndex, counter =>
    let mat := materials matId
    let matName := if mat.name = "" then "Material_" ++ toString matIndex else mat.name
    let matNameLower := matName.toLower
    let meshNameLower := meshName.toLower
    let isGlass := strIncludes meshNameLower "glass" || strIncludes matNameLower "glass"
    let isPrint := strIncludes matNameLower "art" || strIncludes matNameLower "print" ||
      strIncludes meshNameLower "art" || strIncludes meshNameLower "back_art" ||
      strIncludes matNameLower "back_art"
    let isFrame := strIncludes meshNameLower "frame" || strIncludes meshNameLower "metal" ||
      strIncludes matNameLower "metal" || strIncludes matNameLower "frame"
    let isPrintCandidate := (mat.maps "map").isSome && !isGlass && !isFrame
    let finalIsPrint := isPrint || isPrintCandidate
    match mat.maps "map", finalIsPrint with
    | some tex, true =>
      let layerId := "layer_" ++ toString counter
      let r := scanMatsPass materials meshIdx meshName rest (matIndex + 1) (counter + 1)
      (⟨layerId, meshName, matIndex, "map", meshIdx, true⟩ :: r.1,
        (layerId, tex) :: r.2.1, r.2.2)
    | _, _ => scanMatsPass materials meshIdx meshName rest (matIndex + 1) counter

/-- The `model.traverse` of the `GlbTextureSwapTester` scan pass: skip
non-meshes and meshes without a material, then scan each material array. -/
def scanMeshesPass (materials : Nat → GMat) :
    List GMesh → Nat → Nat → Nat → List GLayer × List (String × GTex) × Nat
  | [], _, _, counter => ([], [], counter)
  | mesh :: rest, meshIdx, totalMeshes, counter =>
    if mesh.isMesh = false then
      scanMeshesPass materials rest (meshIdx + 1) totalMeshes counter
    else
      match mesh.material with
      | none => scanMeshesPass materials rest (meshIdx + 1) totalMeshes counter
      | some mats =>
        let meshName := if mesh.name = "" then "Mesh_" ++ toString (totalMeshes + 1)
          else mesh.name
        let r1 := scanMatsPass materials meshIdx meshName mats 0 counter
        let r2 := scanMeshesPass materials rest (meshIdx + 1) (totalMeshes + 1) r1.2.2
        (r1.1 ++ r2.1, r1.2.1 ++ r2.2.1, r2.2.2)

/-- The `GlbTextureSwapTester` scan pass (`gltfLoader.load` callback, map-only
artwork detection): layers and the original-texture registry, in traversal
order. -/
def scanTextureLayers (meshes : List GMesh) (materials : Nat → GMat) :
    List GLayer × List (String × GTex) × Nat :=
  scanMeshesPass materials meshes 0 0 0

/-- The default `textureMapTypes` list of `TextureLayerManager` (identical to
the list used by the second `GlbTextureSwapTester` variant). -/
def textureMapTypes : List String :=
  ["map", "normalMap", "roughnessMap", "metalnessMap", "aoMap",
   "emissiveMap", "alphaMap", "displacementMap", "bumpMap",
   "clearcoatMap", "clearcoatNormalMap", "clearcoatRoughnessMap",
   "sheenColorMap", "sheenRoughnessMap", "transmissionMap", "thicknessMap"]

/-- The per-material loop of the `TextureLayerManager` detection effect (the
same loop as the second `GlbTextureSwapTester` variant's scan): one layer per
bound map type in `mapTypes`. -/
def detectMapTypes (mat : GMat) (matIndex : Nat) (meshName : String) (meshIdx : Nat) :
    List String → Nat → List GLayer × List (String × GTex) × Nat
  | [], counter => ([], [], counter)
  | mt :: rest, counter =>
    match mat.maps mt with
    | some tex =>
      let layerId := "layer_" ++ toString counter
      let r := detectMapTypes mat matIndex meshName meshIdx rest (counter + 1)
      (⟨layerId, meshName, matIndex, mt, meshIdx, true⟩ :: r.1,
        (layerId, tex) :: r.2.1, r.2.2)
    | none => detectMapTypes mat matIndex meshName meshIdx rest counter

/-- The per-mesh loop of the `TextureLayerManager` detection effect. -/
def detectMats (materials : Nat → GMat) (meshIdx : Nat) (meshName : String)
    (mapTypes : List String) :
    List Nat → Nat → Nat → List GLayer × List (String × GTex) × Nat
  | [], _, counter => ([], [], counter)
  | matId :: rest, matIndex, counter =>
    let r1 := detectMapTypes (materials matId) matIndex meshName meshIdx mapTypes counter
    let r2 := detectMats materials meshIdx meshName mapTypes rest (matIndex + 1) r1.2.2
    (r1.1 ++ r2.1, r1.2.1 ++ r2.2.1, r2.2.2)

/-- The per-mesh traversal of the `TextureLayerManager` detection effect. -/
def detectMeshes (materials : Nat → GMat) (mapTypes : List String) :
    List GMesh → Nat → Nat → List GLayer × List (String × GTex) × Nat
  | [], _, counter => ([], [], counter)
  | mesh :: rest, meshIdx, counter =>
    if mesh.isMesh = false then detectMeshes materials mapTypes rest (meshIdx + 1) counter
    else
      match mesh.material with
      | none => detectMeshes materials mapTypes rest (meshIdx + 1) counter
      | some mats =>
        let meshName := if mesh.name = "" then "Unnamed" else mesh.name
        let r1 := detectMats materials meshIdx meshName mapTypes mats 0 counter
        let r2 := detectMeshes materials mapTypes rest (meshIdx + 1) r1.2.2
        (r1.1 ++ r2.1, r1.2.1 ++ r2.2.1, r2.2.2)

/-- The `TextureLayerManager` layer-detection effect (`model.traverse` over
all meshes, all materials, all `textureMapTypes`). -/
def detectTextureLayers (meshes : List GMesh) (materials : Nat → GMat)
    (mapTypes : List String) : List GLayer × List (String × GTex) × Nat :=
  detectMeshes materials mapTypes meshes 0 0

end ArtFrame

namespace ArtFrame

/-- Every layer emitted by the map-only scan's inner loop carries
`mapType = "map"`. -/
theorem scanMatsPass_map_only (materials : Nat → GMat) (meshIdx : Nat)
    (meshName : String) :
    ∀ (mats : List Nat) (matIndex counter : Nat),
      (((scanMatsPass materials meshIdx meshName mats matIndex counter).1).map
        GLayer.mapType).all (fun s => s == "map") = true := by
  intro mats
  induction mats with
  | nil => intro matIndex counter; rfl
  | cons matId rest ih =>
    intro matIndex counter
    simp only [scanMatsPass]
    split
    · simp only [List.map_cons, List.all_cons, ih, Bool.and_true]
      rfl
    · exact ih _ _

/-- Every layer emitted by the map-only scan's mesh loop carries
`mapType = "map"`. -/
theorem scanMeshesPass_map_only (materials : Nat → GMat) :
    ∀ (meshes : List GMesh) (meshIdx totalMeshes counter : Nat),
      (((scanMeshesPass materials meshes meshIdx totalMeshes counter).1).map
        GLayer.mapType).all (fun s => s == "map") = true := by
  intro meshes
  induction meshes with
  | nil => intro meshIdx totalMeshes counter; rfl
  | cons mesh rest ih =>
    intro meshIdx totalMeshes counter
    simp only [scanMeshesPass]
    split
    · exact ih _ _ _
    · split
      · exact ih _ _ _
      · simp only [List.map_append, List.all_append, Bool.and_eq_true]
        exact ⟨scanMatsPass_map_only _ _ _ _ _ _, ih _ _ _⟩

end ArtFrame

namespace ArtFrame

/-- A material carrying only a normal map. -/
def demoNormalMat : GMat where
  name := "Mat0"
  maps := fun s => if s = "normalMap" then some ⟨7, true, true⟩ else none
  needsUpdate := false

/-- A one-mesh scene whose single material binds only `normalMap`. -/
def demoMeshes : List GMesh := [⟨"Board", true, some [0]⟩]

/-- The material store of the demo scene. -/
def demoMaterials : Nat → GMat := fun _ => demoNormalMat

/-- Claim C7 as stated is false: the `TextureLayerManager` detection effect
(and the identical per-map-type scan of the second `GlbTextureSwapTester`
variant) exposes a `normalMap` slot as a swappable layer when a material
binds one — the scan is not restricted to the `map` allow-list. -/
theorem C7_counterexample :
    ((detectTextureLayers demoMeshes demoMaterials textureMapTypes).1.map
      GLayer.mapType) = ["normalMap"] ∧ ("normalMap" : String) ≠ "map" := by
  constructor
  · rfl
  · decide

/-- Claim C7, amended: the primary `GlbTextureSwapTester` scan pass (the
map-only artwork detection) exposes only `map` slots — never `normalMap`,
`roughnessMap` or any other PBR binding — but the `TextureLayerManager`
detection effect and the second `GlbTextureSwapTester` variant expose every
bound map type in their `textureMapTypes` list. -/
theorem C7_scan_allowlist_amended (meshes : List GMesh) (materials : Nat → GMat) :
    (((scanTextureLayers meshes materials).1).map GLayer.mapType).all
      (fun s => s == "map") = true :=
  scanMeshesPass_map_only materials meshes 0 0 0

end ArtFrame

namespace ArtFrame

/-- Rebinding the same texture to the same slot twice is the same material
mutation as doing it once. -/
theorem bindMap_idem (m : GMat) (mt : String) (t : GTex) :
    bindMap (bindMap m mt t) mt t = bindMap m mt t := by
  unfold bindMap
  congr 1
  funext s
  by_cases hs : s = mt
  · simp [hs]
  · simp [hs]

/-- Claim C6 (reset idempotence and original-registry immutability): calling
`resetLayerToOriginal` twice in a row produces exactly the state of a single
call (the same original texture object is bound), and neither
`resetLayerToOriginal` nor `applyTestTextureToLayer` ever mutates the
original-texture registry, which only the scan pass populates. -/
theorem C6_reset_idempotent_registry_immutable (w : GWorld) (lid : String) (n : Nat) :
    resetLayerToOriginal (resetLayerToOriginal w lid) lid = resetLayerToOriginal w lid ∧
    (resetLayerToOriginal w lid).originalTextures = w.originalTextures ∧
    (applyTestTextureToLayer w lid n).originalTextures = w.originalTextures := by
  refine ⟨?_, ?_, ?_⟩
  · rcases hf : w.textureLayers.find? (fun l => l.id == lid) with _ | layer
    · simp [resetLayerToOriginal, hf]
    · rcases hv : layer.valid with _ | _
      · simp [resetLayerToOriginal, hf, hv]
      · rcases hm : w.meshes[layer.meshIdx]? with _ | mesh
        · simp [resetLayerToOriginal, hf, hv, hm]
        · rcases hmm : mesh.material with _ | mats
          · simp [resetLayerToOriginal, hf, hv, hm, hmm]
          · rcases hmi : mats[layer.materialIndex]? with _ | matId
            · simp [resetLayerToOriginal, hf, hv, hm, hmm, hmi]
            · rcases ho : w.originalTextures.lookup lid with _ | orig
              · simp [resetLayerToOriginal, hf, hv, hm, hmm, hmi, ho]
              · have hred : resetLayerToOriginal w lid =
                    { w with materials := fun k =>
                        if k = matId then bindMap (w.materials matId) layer.mapType orig
                        else w.materials k } := by
                  simp [resetLayerToOriginal, hf, hv, hm, hmm, hmi, ho]
                rw [hred]
                simp [resetLayerToOriginal, hf, hv, hm, hmm, hmi, ho]
                funext k
                by_cases hk : k = matId
                · subst hk
                  simp [bindMap_idem]
                · simp [hk]
  · unfold resetLayerToOriginal
    repeat' split
    all_goals rfl
  · unfold applyTestTextureToLayer
    repeat' split
    all_goals rfl

end ArtFrame
